import Mathlib

/-!
Shallow embedding of `send_corp_tax_summary` from
`miningtaxes-discord/discord_integration.py` (lines 195-364).

Modelling choices:
* A Python tax-data dict becomes `TaxRecord`; a key that may be absent
  becomes an `Option` field, and `d.get(key, default)` becomes
  `Option.getD`.  Balances are exact rationals (the claims under study
  concern sums, ordering and defaults, not binary floating point).
* The rendered description string (lines 253-270) is modelled
  structurally as a `List Line`: one constructor per line the Python
  code appends, carrying the data interpolated into that line.
  Likewise the embed fields (lines 273-291) become a `List EmbedField`.
* Python truthiness of the `webhook_url` string and the `channel_id`
  integer is made explicit by `truthyStr` / `truthyInt`
  (`None`/`""`/`0` are falsy).
* The impure collaborators are an explicit environment `Env`:
  whether `from aadiscordbot.tasks import send_message` succeeds
  (`botAvailable`), whether the bot call raises (`botOutcome`), and
  what `requests.post` does (`postOutcome`: an HTTP status, or a raised
  exception).  Each outbound call is recorded as an `Event`, so the
  function returns its boolean result together with the list of
  dispatch attempts; the broad `try/except` of lines 238/362 is
  modelled by the `raise` outcomes mapping to a `false` result.
-/

set_option maxRecDepth 10000

structure TaxRecord where
  username : Option String
  main_character : Option String
  balance : Option Rat
  deriving Repr, DecidableEq

/-- `d.get('balance', 0)` -/
def getBalance (d : TaxRecord) : Rat := d.balance.getD 0

/-- `d.get('username', 'Unknown')` -/
def getUsername (d : TaxRecord) : String := d.username.getD "Unknown"

/-- `d.get('main_character', 'N/A')` -/
def getMainChar (d : TaxRecord) : String := d.main_character.getD "N/A"

/-- Line 240: `outstanding = [d for d in tax_data if d.get('balance', 0) > 0]` -/
def outstandingOf (tax_data : List TaxRecord) : List TaxRecord :=
  tax_data.filter fun d => decide (0 < getBalance d)

/-- Line 246: `outstanding.sort(key=lambda x: x.get('balance', 0), reverse=True)`.
Python's sort is stable; with `reverse=True` it is the stable sort with
respect to "a may precede b iff key b ≤ key a", which is exactly
`mergeSort` with that relation. -/
def sortOutstanding (outstanding : List TaxRecord) : List TaxRecord :=
  outstanding.mergeSort fun a b => decide (getBalance b ≤ getBalance a)

/-- One line of the rendered description block (lines 253-270), carrying
the data the Python code interpolates into that line. -/
inductive Line where
  | fence
  | header
  | separator
  | userRow (username main_char : String) (balance : Rat)
  | overflow (more : Nat)
  | totalRow (total : Rat)
  deriving Repr, DecidableEq

def Line.isUserRow : Line → Bool
  | Line.userRow _ _ _ => true
  | _ => false

def Line.isOverflow : Line → Bool
  | Line.overflow _ => true
  | _ => false

def Line.isTotalRow : Line → Bool
  | Line.totalRow _ => true
  | _ => false

/-- Lines 258-263: one table row; `username[:19]`, `main_char[:24]`. -/
def rowOf (d : TaxRecord) : Line :=
  Line.userRow ((getUsername d).take 19) ((getMainChar d).take 24) (getBalance d)

/-- Lines 253-270: the description block, built from the sorted
outstanding list and the precomputed `total_outstanding`. -/
def buildDescription (outstanding : List TaxRecord) (total_outstanding : Rat) : List Line :=
  [Line.fence, Line.header, Line.separator]
    ++ (outstanding.take 25).map rowOf
    ++ (if 25 < outstanding.length then [Line.overflow (outstanding.length - 25)] else [])
    ++ [Line.separator, Line.totalRow total_outstanding, Line.fence]

/-- An embed field (lines 273-291): the summary field, or the top-3
debtors field whose entries are (rank, username, balance). -/
inductive EmbedField where
  | summary (total_users : Nat) (total_outstanding : Rat)
  | topDebtors (entries : List (Nat × String × Rat))
  deriving Repr, DecidableEq

/-- Lines 273-291: the summary field always, then the top-debtors field
when `len(outstanding) >= 3`, with entries
`f"{i+1}. ... {d.get('username', 'Unknown')} ... {d.get('balance', 0)...}"`
for `i, d in enumerate(outstanding[:3])`. -/
def buildFields (outstanding : List TaxRecord) (total_users : Nat)
    (total_outstanding : Rat) : List EmbedField :=
  [EmbedField.summary total_users total_outstanding]
    ++ (if 3 ≤ outstanding.length then
          [EmbedField.topDebtors ((outstanding.take 3).enum.map
            fun p => (p.1 + 1, getUsername p.2, getBalance p.2))]
        else [])

/-- What `requests.post` does: return a status code, or raise. -/
inductive PostOutcome where
  | status (code : Nat)
  | raise
  deriving Repr, DecidableEq

/-- What the bot `send_message` call does: succeed, or raise. -/
inductive BotOutcome where
  | ok
  | raise
  deriving Repr, DecidableEq

/-- The impure collaborators of one call. -/
structure Env where
  botAvailable : Bool
  botOutcome : BotOutcome
  postOutcome : PostOutcome
  deriving Repr, DecidableEq

/-- One outbound dispatch attempt, with the payload handed over. -/
inductive Event where
  | botSend (channel : Int) (description : List Line) (fields : List EmbedField)
  | httpPost (url : String) (description : List Line) (fields : List EmbedField)
  deriving Repr, DecidableEq

def Event.isHttpPost : Event → Bool
  | Event.httpPost _ _ _ => true
  | _ => false

def Event.isBotSend : Event → Bool
  | Event.botSend _ _ _ => true
  | _ => false

/-- Python truthiness of an optional string: `None` and `""` are falsy. -/
def truthyStr : Option String → Bool
  | none => false
  | some s => !s.isEmpty

/-- Python truthiness of an optional integer: `None` and `0` are falsy. -/
def truthyInt : Option Int → Bool
  | none => false
  | some n => n != 0

/-- Lines 331-360: the webhook branch.  `requests.post` is always
called (line 348); status 200 or 204 is success (line 355), any other
status is failure (line 360), and a raised exception is caught by the
outer handler (line 362) and becomes `False`. -/
def webhookPost (env : Env) (webhook_url : Option String)
    (description : List Line) (fields : List EmbedField) : Bool × List Event :=
  match env.postOutcome with
  | PostOutcome.status code =>
      ((code == 200 || code == 204), [Event.httpPost (webhook_url.getD "") description fields])
  | PostOutcome.raise =>
      (false, [Event.httpPost (webhook_url.getD "") description fields])

/-- Lines 195-364: `send_corp_tax_summary(webhook_url, tax_data, channel_id)`.
Returns the boolean result together with the outbound calls made. -/
def send_corp_tax_summary (env : Env) (webhook_url : Option String)
    (tax_data : List TaxRecord) (channel_id : Option Int) : Bool × List Event :=
  -- line 235: `if (not webhook_url and not channel_id) or not tax_data: return False`
  if ((!truthyStr webhook_url && !truthyInt channel_id) || tax_data.isEmpty) then
    (false, [])
  else
    -- line 240
    let outstanding := outstandingOf tax_data
    -- lines 242-243: `if not outstanding: return True`
    if outstanding.isEmpty then
      (true, [])
    else
      -- line 246 (in-place sort, shadowing the name as the mutation does)
      let outstanding := sortOutstanding outstanding
      -- lines 249-250
      let total_outstanding := (outstanding.map getBalance).sum
      let total_users := outstanding.length
      -- lines 253-270
      let description := buildDescription outstanding total_outstanding
      -- lines 273-291
      let fields := buildFields outstanding total_users total_outstanding
      -- line 294: `if channel_id:`
      if truthyInt channel_id then
        if env.botAvailable then
          -- lines 296-322: build the embed and call `send_message`;
          -- a raised exception is caught at line 362 → False
          match env.botOutcome with
          | BotOutcome.ok =>
              (true, [Event.botSend (channel_id.getD 0) description fields])
          | BotOutcome.raise =>
              (false, [Event.botSend (channel_id.getD 0) description fields])
        else
          -- lines 324-328: ImportError → fall back, unless no webhook_url
          if !truthyStr webhook_url then
            (false, [])
          else
            webhookPost env webhook_url description fields
      else
        -- line 331: `if webhook_url:`
        if truthyStr webhook_url then
          webhookPost env webhook_url description fields
        else
          -- unreachable: line 235 guarantees a truthy destination here
          (false, [])

/-! Sample records used to instantiate the verified properties. -/

def recA : TaxRecord := ⟨some "john_doe", some "John Doe", some 125⟩

def recB : TaxRecord := ⟨some "jane_smith", some "Jane Smith", some 89⟩

def recC : TaxRecord := ⟨none, none, some 3⟩

def recZ : TaxRecord := ⟨some "zero_user", some "Zero Balance", some 0⟩

def recOne : TaxRecord := ⟨some "busy_user", none, some 1⟩

def manyRecs (n : Nat) : List TaxRecord := List.replicate n recOne

/-! General lemmas about the sorting step. -/

/-- The comparison used at line 246 is total. -/
lemma balanceLe_total (a b : TaxRecord) :
    (decide (getBalance b ≤ getBalance a) || decide (getBalance a ≤ getBalance b)) = true := by
  simp [le_total]

/-- The comparison used at line 246 is transitive. -/
lemma balanceLe_trans (a b c : TaxRecord)
    (h1 : decide (getBalance b ≤ getBalance a) = true)
    (h2 : decide (getBalance c ≤ getBalance b) = true) :
    decide (getBalance c ≤ getBalance a) = true := by
  simp only [decide_eq_true_eq] at *
  exact le_trans h2 h1

lemma sortOutstanding_perm (l : List TaxRecord) : (sortOutstanding l).Perm l :=
  List.mergeSort_perm l _

lemma sortOutstanding_length (l : List TaxRecord) :
    (sortOutstanding l).length = l.length :=
  (sortOutstanding_perm l).length_eq

lemma sortOutstanding_sum (l : List TaxRecord) :
    ((sortOutstanding l).map getBalance).sum = (l.map getBalance).sum :=
  ((sortOutstanding_perm l).map getBalance).sum_eq

lemma sortOutstanding_pairwise (l : List TaxRecord) :
    (sortOutstanding l).Pairwise fun a b => getBalance b ≤ getBalance a := by
  have h := @List.sorted_mergeSort _ (fun a b : TaxRecord => decide (getBalance b ≤ getBalance a))
    balanceLe_trans balanceLe_total l
  exact h.imp (by simp)

lemma sortOutstanding_singleton (d : TaxRecord) : sortOutstanding [d] = [d] := by
  simp [sortOutstanding]

lemma sortOutstanding_of_sorted (l : List TaxRecord)
    (h : l.Pairwise fun a b => getBalance b ≤ getBalance a) : sortOutstanding l = l := by
  apply List.mergeSort_of_sorted
  exact h.imp (by simp)

/-- Stability of the sort at line 246: the records carrying any fixed
balance value appear in the sorted list exactly in input order. -/
lemma sortOutstanding_filter_balance (l : List TaxRecord) (c : Rat) :
    (sortOutstanding l).filter (fun d => decide (getBalance d = c))
      = l.filter (fun d => decide (getBalance d = c)) := by
  have hsub : List.Sublist (l.filter (fun d => decide (getBalance d = c))) (sortOutstanding l) := by
    apply List.sublist_mergeSort balanceLe_trans balanceLe_total
    · apply List.pairwise_of_forall_mem_list
      intro a ha b hb
      simp only [List.mem_filter, decide_eq_true_eq] at ha hb
      simp [ha.2, hb.2]
    · exact List.filter_sublist l
  have hsub2 : List.Sublist (l.filter (fun d => decide (getBalance d = c)))
      ((sortOutstanding l).filter (fun d => decide (getBalance d = c))) := by
    have := hsub.filter (fun d => decide (getBalance d = c))
    simpa [List.filter_filter] using this
  have hlen : ((sortOutstanding l).filter (fun d => decide (getBalance d = c))).length
      = (l.filter (fun d => decide (getBalance d = c))).length :=
    ((sortOutstanding_perm l).filter _).length_eq
  exact (hsub2.eq_of_length hlen.symm).symm

/-! Claim theorems. -/

/-- C7: if both `webhook_url` and `channel_id` are absent, or the input
balances list is empty, `send_corp_tax_summary` returns false
immediately and no dispatch of any kind is attempted (line 235). -/
theorem corp_summary_no_destination (env : Env) (webhook_url : Option String)
    (tax_data : List TaxRecord) (channel_id : Option Int)
    (h : (webhook_url = none ∧ channel_id = none) ∨ tax_data = []) :
    send_corp_tax_summary env webhook_url tax_data channel_id = (false, []) := by
  rcases h with ⟨hw, hc⟩ | ht
  · subst hw; subst hc
    simp [send_corp_tax_summary, truthyStr, truthyInt]
  · subst ht
    simp [send_corp_tax_summary]

/-- Witness for C7: no destination configured, one qualifying record. -/
theorem corp_summary_no_destination_instance :
    ((none : Option String) = none ∧ (none : Option Int) = none) ∧
    send_corp_tax_summary ⟨true, BotOutcome.ok, PostOutcome.status 200⟩ none [recA] none
      = (false, []) :=
  ⟨⟨rfl, rfl⟩,
   corp_summary_no_destination ⟨true, BotOutcome.ok, PostOutcome.status 200⟩ none [recA] none
     (Or.inl ⟨rfl, rfl⟩)⟩

/-- C10: a falsy `channel_id` (the integer 0) is treated exactly as if
`channel_id` were absent (lines 235 and 294 test truthiness, not
presence); in particular, with no `webhook_url` the call fails even
though a channel identifier argument was passed. -/
theorem corp_summary_falsy_channel (env : Env) (webhook_url : Option String)
    (tax_data : List TaxRecord) :
    send_corp_tax_summary env webhook_url tax_data (some 0)
        = send_corp_tax_summary env webhook_url tax_data none ∧
    send_corp_tax_summary env none tax_data (some 0) = (false, []) := by
  constructor
  · simp [send_corp_tax_summary, truthyInt]
  · simp [send_corp_tax_summary, truthyInt, truthyStr]

/-- C6 counterexample: the empty input list has no qualifying record,
yet the call returns `false`, not `true` — the guard at line 235
(`or not tax_data`) fires before the qualifying-set check at line 242. -/
theorem corp_summary_nothing_to_report_cex :
    outstandingOf [] = [] ∧
    (send_corp_tax_summary ⟨true, BotOutcome.ok, PostOutcome.status 200⟩
        (some "u") [] none).fst ≠ true := by
  decide

/-- C6 (amended): for every NONEMPTY input list with no qualifying
(`balance > 0`) record, given that at least one destination
(`webhook_url` or `channel_id`) is truthy, `send_corp_tax_summary`
returns true and performs zero outbound calls (lines 240-243). -/
theorem corp_summary_nothing_to_report (env : Env) (webhook_url : Option String)
    (tax_data : List TaxRecord) (channel_id : Option Int)
    (hne : tax_data ≠ [])
    (hdest : (truthyStr webhook_url || truthyInt channel_id) = true)
    (hq : outstandingOf tax_data = []) :
    send_corp_tax_summary env webhook_url tax_data channel_id = (true, []) := by
  have h1 : tax_data.isEmpty = false := by
    cases tax_data
    · exact absurd rfl hne
    · rfl
  have h2 : (!truthyStr webhook_url && !truthyInt channel_id) = false := by
    cases hw : truthyStr webhook_url <;> cases hc : truthyInt channel_id <;>
      simp_all
  simp [send_corp_tax_summary, h1, h2, hq]

/-- Witness for C6 (amended): one record with a zero balance. -/
theorem corp_summary_nothing_to_report_instance :
    [recZ] ≠ [] ∧ outstandingOf [recZ] = [] ∧
    send_corp_tax_summary ⟨true, BotOutcome.ok, PostOutcome.status 200⟩
        (some "u") [recZ] none = (true, []) :=
  ⟨by decide, by decide,
   corp_summary_nothing_to_report ⟨true, BotOutcome.ok, PostOutcome.status 200⟩
     (some "u") [recZ] none (by decide) (by decide) (by decide)⟩

/-- C1 counterexample: with `channel_id` set (truthy), the bot
unavailable and `webhook_url` set, the claim demands exactly one HTTP
POST on EVERY call; on the empty input list the guard at line 235
returns false before any dispatch, so zero HTTP POSTs occur. -/
theorem corp_summary_dispatch_priority_cex :
    truthyInt (some 5) = true ∧ truthyStr (some "u") = true ∧
    (⟨false, BotOutcome.ok, PostOutcome.status 200⟩ : Env).botAvailable = false ∧
    ((send_corp_tax_summary ⟨false, BotOutcome.ok, PostOutcome.status 200⟩
        (some "u") [] (some 5)).snd.filter Event.isHttpPost).length ≠ 1 := by
  decide

/-- C1 (amended): for every call with a truthy `channel_id` and at
least one qualifying record: when the bot capability is available the
single dispatch goes through the bot and no HTTP POST to `webhook_url`
occurs even if `webhook_url` is set (lines 294-322); when the bot
capability is unavailable, exactly one HTTP POST occurs if
`webhook_url` is truthy (lines 324-360), and the call returns false
with no dispatch if `webhook_url` is falsy (lines 326-328). -/
theorem corp_summary_dispatch_priority (env : Env) (webhook_url : Option String)
    (tax_data : List TaxRecord) (channel_id : Option Int)
    (hc : truthyInt channel_id = true)
    (hq : outstandingOf tax_data ≠ []) :
    (env.botAvailable = true →
        (∃ d f, (send_corp_tax_summary env webhook_url tax_data channel_id).snd
            = [Event.botSend (channel_id.getD 0) d f]) ∧
        (send_corp_tax_summary env webhook_url tax_data channel_id).snd.filter
            Event.isHttpPost = []) ∧
    (env.botAvailable = false →
        (truthyStr webhook_url = true →
            ((send_corp_tax_summary env webhook_url tax_data channel_id).snd.filter
                Event.isHttpPost).length = 1 ∧
            (send_corp_tax_summary env webhook_url tax_data channel_id).snd.filter
                Event.isBotSend = []) ∧
        (truthyStr webhook_url = false →
            send_corp_tax_summary env webhook_url tax_data channel_id = (false, []))) := by
  have hne : tax_data.isEmpty = false := by
    cases htd : tax_data
    · exact absurd (by simp [htd, outstandingOf]) hq
    · rfl
  have hqe : (outstandingOf tax_data).isEmpty = false := by
    cases hq2 : outstandingOf tax_data
    · exact absurd hq2 hq
    · rfl
  constructor
  · intro hba
    cases hbo : env.botOutcome <;>
      simp [send_corp_tax_summary, hc, hne, hqe, hba, hbo, Event.isHttpPost]
  · intro hba
    constructor
    · intro hw
      cases hpo : env.postOutcome <;>
        simp [send_corp_tax_summary, webhookPost, hc, hne, hqe, hba, hpo, hw,
          Event.isHttpPost, Event.isBotSend]
    · intro hw
      simp [send_corp_tax_summary, hc, hne, hqe, hba, hw]

/-- Witness for C1 (amended): bot available, both destinations set,
one qualifying record. -/
theorem corp_summary_dispatch_priority_instance :
    truthyInt (some 5) = true ∧ outstandingOf [recA] ≠ [] ∧
    ((⟨true, BotOutcome.ok, PostOutcome.status 200⟩ : Env).botAvailable = true →
        (∃ d f, (send_corp_tax_summary ⟨true, BotOutcome.ok, PostOutcome.status 200⟩
            (some "u") [recA] (some 5)).snd = [Event.botSend ((some (5 : Int)).getD 0) d f]) ∧
        (send_corp_tax_summary ⟨true, BotOutcome.ok, PostOutcome.status 200⟩
            (some "u") [recA] (some 5)).snd.filter Event.isHttpPost = []) :=
  ⟨by decide, by decide,
   (corp_summary_dispatch_priority ⟨true, BotOutcome.ok, PostOutcome.status 200⟩
     (some "u") [recA] (some 5) (by decide) (by decide)).1⟩

/-- C9: `send_corp_tax_summary` never raises to its caller: a raised
exception during dispatch is caught by the handler at lines 238/362 and
converted into a `false` result — whenever the HTTP POST raises, any
call that attempted an HTTP POST returns false, and whenever the bot
call raises, any call that attempted a bot send returns false. -/
theorem corp_summary_no_raise (env : Env) (webhook_url : Option String)
    (tax_data : List TaxRecord) (channel_id : Option Int) :
    (env.postOutcome = PostOutcome.raise →
        ∀ u d f, Event.httpPost u d f ∈
            (send_corp_tax_summary env webhook_url tax_data channel_id).snd →
          (send_corp_tax_summary env webhook_url tax_data channel_id).fst = false) ∧
    (env.botOutcome = BotOutcome.raise →
        ∀ c d f, Event.botSend c d f ∈
            (send_corp_tax_summary env webhook_url tax_data channel_id).snd →
          (send_corp_tax_summary env webhook_url tax_data channel_id).fst = false) := by
  obtain ⟨ba, bo, po⟩ := env
  constructor
  · rintro rfl u d f hmem
    simp only [send_corp_tax_summary, webhookPost] at hmem ⊢
    cases ba <;> cases bo <;> split_ifs at hmem ⊢ <;> simp_all
  · rintro rfl c d f hmem
    simp only [send_corp_tax_summary, webhookPost] at hmem ⊢
    cases ba <;> cases po <;> split_ifs at hmem ⊢ <;> simp_all

/-- Concrete evaluation: webhook path with a raising `requests.post`. -/
lemma send_post_raise_eval :
    send_corp_tax_summary ⟨false, BotOutcome.ok, PostOutcome.raise⟩ (some "u") [recA] none
      = (false, [Event.httpPost "u" (buildDescription [recA] 125) (buildFields [recA] 1 125)]) := by
  have h1 : outstandingOf [recA] = [recA] := by decide
  have hsum : (List.map getBalance [recA]).sum = 125 := by
    norm_num [getBalance, recA]
  unfold send_corp_tax_summary
  simp only [h1, sortOutstanding_singleton, hsum]
  decide

/-- Witness for C9: the POST raises; the attempted HTTP dispatch is
converted into a `false` result. -/
theorem corp_summary_no_raise_instance :
    (⟨false, BotOutcome.ok, PostOutcome.raise⟩ : Env).postOutcome = PostOutcome.raise ∧
    (send_corp_tax_summary ⟨false, BotOutcome.ok, PostOutcome.raise⟩
        (some "u") [recA] none).fst = false :=
  ⟨rfl,
   (corp_summary_no_raise ⟨false, BotOutcome.ok, PostOutcome.raise⟩ (some "u") [recA] none).1
     rfl "u" (buildDescription [recA] 125) (buildFields [recA] 1 125)
     (by rw [send_post_raise_eval]; exact List.mem_singleton.mpr rfl)⟩

/-- The description block always carries exactly one TOTAL line, and it
shows the total passed in at line 269. -/
lemma buildDescription_filter_totalRow (l : List TaxRecord) (t : Rat) :
    (buildDescription l t).filter Line.isTotalRow = [Line.totalRow t] := by
  by_cases hc : 25 < l.length <;>
    simp [buildDescription, hc, List.filter_append, List.filter_map, Function.comp,
      rowOf, Line.isTotalRow] <;>
  · intro a ha
    obtain ⟨d, _, rfl⟩ := List.mem_map.mp (List.mem_of_mem_take ha)
    rfl

/-- C2: for every input with at least one qualifying record, the amount
on the rendered TOTAL line is the sum of `balance` over ALL qualifying
records (line 249 sums the whole sorted list, before the display list
is truncated to 25 rows at line 258). -/
theorem corp_summary_total_line (td : List TaxRecord)
    (h : outstandingOf td ≠ []) :
    (buildDescription (sortOutstanding (outstandingOf td))
        ((List.map getBalance (sortOutstanding (outstandingOf td))).sum)).filter
        Line.isTotalRow
      = [Line.totalRow ((List.map getBalance (outstandingOf td)).sum)] := by
  rw [buildDescription_filter_totalRow, sortOutstanding_sum]

/-- Witness for C2: two qualifying records. -/
theorem corp_summary_total_line_instance :
    outstandingOf [recA, recB] ≠ [] ∧
    (buildDescription (sortOutstanding (outstandingOf [recA, recB]))
        ((List.map getBalance (sortOutstanding (outstandingOf [recA, recB]))).sum)).filter
        Line.isTotalRow
      = [Line.totalRow ((List.map getBalance (outstandingOf [recA, recB])).sum)] :=
  ⟨by decide, corp_summary_total_line [recA, recB] (by decide)⟩

/-- C3: for every qualifying set of size greater than 25, exactly 25
user rows are rendered (lines 257-258 truncate at 25), followed by one
overflow line whose count is the qualifying-record count minus 25
(lines 265-266). -/
theorem corp_summary_overflow (td : List TaxRecord)
    (h : 25 < (outstandingOf td).length) :
    ∃ rows : List Line,
      buildDescription (sortOutstanding (outstandingOf td))
          ((List.map getBalance (sortOutstanding (outstandingOf td))).sum)
        = [Line.fence, Line.header, Line.separator] ++ rows
            ++ [Line.overflow ((outstandingOf td).length - 25), Line.separator,
                Line.totalRow ((List.map getBalance (sortOutstanding (outstandingOf td))).sum),
                Line.fence] ∧
      rows.length = 25 ∧ ∀ r ∈ rows, r.isUserRow = true := by
  have hlen : (sortOutstanding (outstandingOf td)).length = (outstandingOf td).length :=
    sortOutstanding_length _
  refine ⟨((sortOutstanding (outstandingOf td)).take 25).map rowOf, ?_, ?_, ?_⟩
  · simp [buildDescription, hlen, h]
  · have : 25 ≤ (sortOutstanding (outstandingOf td)).length := by omega
    simp [this]
  · intro r hr
    obtain ⟨d, _, rfl⟩ := List.mem_map.mp hr
    rfl

/-- Witness for C3: 26 qualifying records. -/
theorem corp_summary_overflow_instance :
    25 < (outstandingOf (manyRecs 26)).length ∧
    ∃ rows : List Line,
      buildDescription (sortOutstanding (outstandingOf (manyRecs 26)))
          ((List.map getBalance (sortOutstanding (outstandingOf (manyRecs 26)))).sum)
        = [Line.fence, Line.header, Line.separator] ++ rows
            ++ [Line.overflow ((outstandingOf (manyRecs 26)).length - 25), Line.separator,
                Line.totalRow
                  ((List.map getBalance (sortOutstanding (outstandingOf (manyRecs 26)))).sum),
                Line.fence] ∧
      rows.length = 25 ∧ ∀ r ∈ rows, r.isUserRow = true :=
  ⟨by decide, corp_summary_overflow (manyRecs 26) (by decide)⟩

/-- C5: the sort at line 246 permutes the qualifying records into
descending balance order, and it is stable: for any balance value, the
records carrying it appear in the sorted list in exactly their input
order.  (Python's `list.sort` is stable; `reverse=True` inverts the
comparison without disturbing ties.) -/
theorem corp_summary_sort_stable (td : List TaxRecord) :
    (sortOutstanding (outstandingOf td)).Perm (outstandingOf td) ∧
    (sortOutstanding (outstandingOf td)).Pairwise
        (fun a b => getBalance b ≤ getBalance a) ∧
    ∀ c : Rat,
      (sortOutstanding (outstandingOf td)).filter (fun d => decide (getBalance d = c))
        = (outstandingOf td).filter (fun d => decide (getBalance d = c)) :=
  ⟨sortOutstanding_perm _, sortOutstanding_pairwise _,
   fun c => sortOutstanding_filter_balance (outstandingOf td) c⟩

/-- C4: for every qualifying set of size at least 3, the field list
contains a top-debtors block holding exactly the first 3 entries of the
sorted qualifying list, ranked 1-3, in descending balance order and
each at least every remaining balance (lines 281-291); for size below
3, only the summary field is produced. -/
theorem corp_summary_top_debtors (td : List TaxRecord) :
    (3 ≤ (outstandingOf td).length →
      ∃ d1 d2 d3 rest,
        sortOutstanding (outstandingOf td) = d1 :: d2 :: d3 :: rest ∧
        buildFields (sortOutstanding (outstandingOf td))
            (sortOutstanding (outstandingOf td)).length
            ((List.map getBalance (sortOutstanding (outstandingOf td))).sum)
          = [EmbedField.summary (sortOutstanding (outstandingOf td)).length
               ((List.map getBalance (sortOutstanding (outstandingOf td))).sum),
             EmbedField.topDebtors
               [(1, getUsername d1, getBalance d1),
                (2, getUsername d2, getBalance d2),
                (3, getUsername d3, getBalance d3)]] ∧
        getBalance d2 ≤ getBalance d1 ∧ getBalance d3 ≤ getBalance d2 ∧
        ∀ d ∈ rest, getBalance d ≤ getBalance d3) ∧
    ((outstandingOf td).length < 3 →
      buildFields (sortOutstanding (outstandingOf td))
          (sortOutstanding (outstandingOf td)).length
          ((List.map getBalance (sortOutstanding (outstandingOf td))).sum)
        = [EmbedField.summary (sortOutstanding (outstandingOf td)).length
             ((List.map getBalance (sortOutstanding (outstandingOf td))).sum)]) := by
  have hlen : (sortOutstanding (outstandingOf td)).length = (outstandingOf td).length :=
    sortOutstanding_length _
  constructor
  · intro h3
    have hlen3 : 3 ≤ (sortOutstanding (outstandingOf td)).length := by omega
    rcases hs : sortOutstanding (outstandingOf td) with _ | ⟨d1, _ | ⟨d2, _ | ⟨d3, rest⟩⟩⟩
    · rw [hs] at hlen3; simp at hlen3
    · rw [hs] at hlen3; simp at hlen3
    · rw [hs] at hlen3; simp at hlen3
    have hpw := sortOutstanding_pairwise (outstandingOf td)
    rw [hs] at hpw
    rw [List.pairwise_cons] at hpw
    obtain ⟨hp1, hpw⟩ := hpw
    rw [List.pairwise_cons] at hpw
    obtain ⟨hp2, hpw⟩ := hpw
    rw [List.pairwise_cons] at hpw
    obtain ⟨hp3, _⟩ := hpw
    refine ⟨d1, d2, d3, rest, rfl, ?_, ?_, ?_, ?_⟩
    · have hcond : 3 ≤ (d1 :: d2 :: d3 :: rest).length := by simp
      simp [buildFields, hcond, List.enum, List.enumFrom]
    · exact hp1 d2 (by simp)
    · exact hp2 d3 (by simp)
    · intro d hd
      exact hp3 d hd
  · intro h3
    have : ¬ 3 ≤ (sortOutstanding (outstandingOf td)).length := by omega
    simp [buildFields, this]

/-- Witness for C4: three qualifying records. -/
theorem corp_summary_top_debtors_instance :
    3 ≤ (outstandingOf [recA, recB, recC]).length ∧
    ∃ d1 d2 d3 rest,
      sortOutstanding (outstandingOf [recA, recB, recC]) = d1 :: d2 :: d3 :: rest ∧
      buildFields (sortOutstanding (outstandingOf [recA, recB, recC]))
          (sortOutstanding (outstandingOf [recA, recB, recC])).length
          ((List.map getBalance (sortOutstanding (outstandingOf [recA, recB, recC]))).sum)
        = [EmbedField.summary (sortOutstanding (outstandingOf [recA, recB, recC])).length
             ((List.map getBalance (sortOutstanding (outstandingOf [recA, recB, recC]))).sum),
           EmbedField.topDebtors
             [(1, getUsername d1, getBalance d1),
              (2, getUsername d2, getBalance d2),
              (3, getUsername d3, getBalance d3)]] ∧
      getBalance d2 ≤ getBalance d1 ∧ getBalance d3 ≤ getBalance d2 ∧
      ∀ d ∈ rest, getBalance d ≤ getBalance d3 :=
  ⟨by decide, (corp_summary_top_debtors [recA, recB, recC]).1 (by decide)⟩

/-- C8: malformed records are rendered with default placeholders
rather than failing: every user row of the description block comes from
a displayed record through `rowOf`, which is total, and an absent
`username` renders as "Unknown", an absent `main_character` as "N/A",
and an absent `balance` as 0 (the `.get(...)` defaults at lines
258-263). -/
theorem corp_summary_default_placeholders (td : List TaxRecord) (t : Rat) (line : Line)
    (hmem : line ∈ buildDescription (sortOutstanding (outstandingOf td)) t)
    (hrow : line.isUserRow = true) :
    ∃ d, d ∈ (sortOutstanding (outstandingOf td)).take 25 ∧ line = rowOf d ∧
      (d.username = none → ∃ m b, line = Line.userRow "Unknown" m b) ∧
      (d.main_character = none → ∃ u b, line = Line.userRow u "N/A" b) ∧
      (d.balance = none → ∃ u m, line = Line.userRow u m 0) := by
  rcases List.mem_append.mp hmem with h1 | htail
  · rcases List.mem_append.mp h1 with h2 | hite
    · rcases List.mem_append.mp h2 with hhead | hrows
      · simp only [List.mem_cons, List.mem_singleton, List.not_mem_nil, or_false] at hhead
        rcases hhead with rfl | rfl | rfl <;> simp [Line.isUserRow] at hrow
      · obtain ⟨d, hd, rfl⟩ := List.mem_map.mp hrows
        refine ⟨d, hd, rfl, ?_, ?_, ?_⟩
        · intro hu
          refine ⟨(getMainChar d).take 24, getBalance d, ?_⟩
          simp [rowOf, getUsername, hu]
          decide
        · intro hm
          refine ⟨(getUsername d).take 19, getBalance d, ?_⟩
          simp [rowOf, getMainChar, hm]
          decide
        · intro hb
          refine ⟨(getUsername d).take 19, (getMainChar d).take 24, ?_⟩
          simp [rowOf, getBalance, hb]
    · by_cases hc : 25 < (sortOutstanding (outstandingOf td)).length
      · rw [if_pos hc] at hite
        simp only [List.mem_singleton] at hite
        subst hite
        simp [Line.isUserRow] at hrow
      · rw [if_neg hc] at hite
        simp at hite
  · simp only [List.mem_cons, List.mem_singleton, List.not_mem_nil, or_false] at htail
    rcases htail with rfl | rfl | rfl <;> simp [Line.isUserRow] at hrow

/-- Witness for C8: a record with no `username` and no
`main_character` renders as the placeholders "Unknown" / "N/A". -/
theorem corp_summary_default_placeholders_instance :
    (Line.userRow "Unknown" "N/A" 3).isUserRow = true ∧
    ∃ d, d ∈ (sortOutstanding (outstandingOf [recC])).take 25 ∧
      Line.userRow "Unknown" "N/A" 3 = rowOf d ∧
      (d.username = none → ∃ m b, Line.userRow "Unknown" "N/A" 3 = Line.userRow "Unknown" m b) ∧
      (d.main_character = none → ∃ u b, Line.userRow "Unknown" "N/A" 3 = Line.userRow u "N/A" b) ∧
      (d.balance = none → ∃ u m, Line.userRow "Unknown" "N/A" 3 = Line.userRow u m 0) :=
  ⟨rfl,
   corp_summary_default_placeholders [recC] 3 (Line.userRow "Unknown" "N/A" 3)
     (by
       have h1 : outstandingOf [recC] = [recC] := by decide
       rw [h1, sortOutstanding_singleton]
       decide)
     rfl⟩
